import Mathlib

set_option maxHeartbeats 1000000

/- Formal model of the SQL statement guard and bounded executor implemented in
src/app.py (regex constants on lines 78-80, function guard_sql on lines 82-93,
function run_sql on lines 95-127).  Strings are modelled as lists of
characters.  The Python regular expressions are embedded as executable
character-list matchers that follow the patterns exactly as they appear in the
source file; note that the raw-string literals there contain doubled
backslashes, so for example the sequence written as a double backslash
followed by the letter s denotes a literal backslash character followed by
zero or more letters s, not a whitespace class. -/

/-- Character class for the repeated letter s (case-insensitive) that the
source pattern produces after its literal backslash. -/
def isSChar (c : Char) : Bool := c == 's' || c == 'S'

/-- Character class for the letter b (case-insensitive) that follows the
literal backslash in the source patterns. -/
def isBChar (c : Char) : Bool := c == 'b' || c == 'B'

/-- ASCII word character, as used by the word-boundary class of the regular
expression language the spec refers to. -/
def isWordChar (c : Char) : Bool := c.isAlpha || c.isDigit || c == '_'

/-- ASCII whitespace as recognised by the Python str.strip method and by the
whitespace class of its regular expressions. -/
def isPyWs (c : Char) : Bool :=
  c == ' ' || c == '\t' || c == '\n' || c == '\r' || c == '\x0b' || c == '\x0c'

/-- Case-insensitive test that the second list starts with the first; the
first list is expected to be lowercase. -/
def ciStarts : List Char → List Char → Bool
  | [], _ => true
  | _ :: _, [] => false
  | p :: ps, c :: cs => (c.toLower == p) && ciStarts ps cs

def kwWith : List Char := ("with").data

def kwSelect : List Char := ("select").data

def kwFrom : List Char := ("from").data

def kwPublic : List Char := ("public").data

def kwPav : List Char := ("purchaseallview").data

def kwLimit : List Char := ("limit").data

/-- Matches a literal backslash followed by the letter b (case-insensitive),
which is what the doubled-backslash-b in the source patterns denotes. -/
def slashB : List Char → Bool
  | '\\' :: c :: _ => isBChar c
  | _ => false

/-- Runs the continuation after consuming zero or more letters s
(case-insensitive), trying every possible amount, as regex backtracking
does. -/
def sStarThen (k : List Char → Bool) : List Char → Bool
  | [] => k []
  | c :: cs => k (c :: cs) || (isSChar c && sStarThen k cs)

/-- Runs the continuation after consuming zero or more whitespace characters,
trying every possible amount, as regex backtracking does. -/
def wsStarThen (k : List Char → Bool) : List Char → Bool
  | [] => k []
  | c :: cs => k (c :: cs) || (isPyWs c && wsStarThen k cs)

/-- Unanchored regex search: tries the position matcher at every suffix. -/
def searchFrom (p : List Char → Bool) : List Char → Bool
  | [] => p []
  | c :: cs => p (c :: cs) || searchFrom p cs

/-- The keyword alternative of the allow pattern from src/app.py line 78:
with or select (case-insensitive) followed by a literal backslash and b. -/
def allowKeyword (cs : List Char) : Bool :=
  (ciStarts kwWith cs && slashB (cs.drop 4)) ||
  (ciStarts kwSelect cs && slashB (cs.drop 6))

/-- The part of the allow pattern after its leading literal backslash: a run
of letters s, then the keyword alternative. -/
def allowAfterSlash : List Char → Bool
  | [] => false
  | c :: cs => allowKeyword (c :: cs) || (isSChar c && allowAfterSlash cs)

/-- Embeds _SQL_ALLOW_RE from src/app.py line 78.  The pattern in the file is
anchored at the start and, because of the doubled backslashes in the raw
string, requires a literal backslash first. -/
def sqlAllowMatch : List Char → Bool
  | [] => false
  | c :: cs => c == '\\' && allowAfterSlash cs

def forbidVerbs : List (List Char) :=
  [("insert").data, ("update").data, ("delete").data, ("drop").data,
   ("alter").data, ("truncate").data, ("create").data, ("grant").data,
   ("revoke").data, ("commit").data, ("rollback").data]

/-- Position matcher for _SQL_FORBID_RE from src/app.py line 79: a literal
backslash, letter b, a forbidden verb, then a literal backslash and b. -/
def forbidHere : List Char → Bool
  | '\\' :: c :: cs =>
      isBChar c && forbidVerbs.any (fun v => ciStarts v cs && slashB (cs.drop v.length))
  | _ => false

/-- Embeds the search with _SQL_FORBID_RE from src/app.py line 79. -/
def forbidSearch (s : List Char) : Bool := searchFrom forbidHere s

/-- Tail of the view pattern: an optional double quote then the view name,
case-insensitively.  The trailing optional quote of the source pattern always
matches the empty string and is therefore irrelevant. -/
def pavHere (cs : List Char) : Bool :=
  (match cs with
   | '"' :: cs2 => ciStarts kwPav cs2
   | _ => false) || ciStarts kwPav cs

/-- Part of the view pattern after the dot position: a literal backslash, a
run of letters s, then the quoted view name. -/
def afterDot : List Char → Bool
  | '\\' :: cs => sStarThen pavHere cs
  | _ => false

/-- Part of the view pattern after the schema name: a literal backslash, a
run of letters s, a literal backslash, any character other than a newline
(the unescaped dot of the pattern), then the rest. -/
def afterPublic : List Char → Bool
  | '\\' :: cs =>
      sStarThen (fun cs2 =>
        match cs2 with
        | '\\' :: a :: cs3 => (a != '\n') && afterDot cs3
        | _ => false) cs
  | _ => false

/-- Position matcher for _SQL_VIEW_RE from src/app.py line 80, with the
doubled backslashes of the raw string taken literally. -/
def viewHere (cs : List Char) : Bool :=
  ciStarts kwFrom cs &&
  (match cs.drop 4 with
   | '\\' :: c :: cs2 =>
       isSChar c && sStarThen (fun cs3 =>
         ciStarts kwPublic cs3 && afterPublic (cs3.drop 6)) cs2
   | _ => false)

/-- Embeds the search with _SQL_VIEW_RE from src/app.py line 80. -/
def viewSearch (s : List Char) : Bool := searchFrom viewHere s

/-- Position matcher for the limit pattern of src/app.py line 100: a literal
backslash, letter b, the word limit, a literal backslash, letter b. -/
def limitHere : List Char → Bool
  | '\\' :: c :: cs => isBChar c && ciStarts kwLimit cs && slashB (cs.drop 5)
  | _ => false

/-- Embeds the search on src/app.py line 100 that decides whether a limit
clause is appended. -/
def limitSearch (s : List Char) : Bool := searchFrom limitHere s

/-- Python str.strip with no arguments: removes leading and trailing
whitespace. -/
def pyStrip (s : List Char) : List Char :=
  ((s.dropWhile isPyWs).reverse.dropWhile isPyWs).reverse

/-- Python str.rstrip with a semicolon argument: removes every trailing
semicolon, as used on src/app.py line 101. -/
def rstripSemi (s : List Char) : List Char :=
  (s.reverse.dropWhile (fun c => c == ';')).reverse

/-- The four rejection reasons of guard_sql, one per raise site in
src/app.py lines 84-92. -/
inductive GuardError where
  | notAReadStatement
  | forbiddenOperation
  | unauthorizedTarget
  | multipleStatements
deriving DecidableEq

/-- The Russian message text carried by the ValueError raised for each
rejection reason in src/app.py lines 84-92. -/
def GuardError.message : GuardError → String
  | .notAReadStatement => "SQL должен начинаться с SELECT/WITH."
  | .forbiddenOperation => "Запрещены DML/DDL операции."
  | .unauthorizedTarget => "Разрешены запросы только к public.\"PurchaseAllView\"."
  | .multipleStatements => "Несколько команд запрещены (найдена точка с запятой в середине)."

/-- Embeds guard_sql from src/app.py lines 82-93: returns the stripped text
or the rejection reason of the ValueError it raises.  The fourth check is the
literal source condition: a semicolon anywhere in the stripped text with its
last character removed. -/
def guard_sql (sqlText : List Char) : Except GuardError (List Char) :=
  if sqlAllowMatch sqlText = false then Except.error GuardError.notAReadStatement
  else if forbidSearch sqlText = true then Except.error GuardError.forbiddenOperation
  else if viewSearch sqlText = false then Except.error GuardError.unauthorizedTarget
  else if ';' ∈ (pyStrip sqlText).dropLast then Except.error GuardError.multipleStatements
  else Except.ok (pyStrip sqlText)

/-- A result row as produced by the dictionary cursor: an ordered mapping
from column name to value. -/
structure Row where
  fields : List (String × String)
deriving DecidableEq

/-- Oracle for the data store: outcome of connecting, of executing a given
statement, of fetching its rows, and the measured elapsed time. -/
structure DB where
  connectRes : Except String Unit
  execRes : List Char → Except String Unit
  fetchRes : List Char → Except String (List Row)
  elapsedMs : Nat

/-- Observable data-store events of one run_sql call, used to state the
resource-handling claims. -/
inductive Ev where
  | connectAttempt
  | connectOk
  | execStmt (sql : List Char)
  | fetchRows
  | closeConn
deriving DecidableEq

/-- The value run_sql returns: the success dictionary of src/app.py lines
113-120 or the error dictionary of line 122. -/
inductive RunResult where
  | success (elapsedMs : Nat) (rowCount : Nat) (previewLimit : Int)
      (columns : List String) (rows : List Row)
  | failure (error : String)
deriving DecidableEq

/-- Column names taken from the first preview row, empty when there is none
(src/app.py line 118). -/
def columnsOf : List Row → List String
  | [] => []
  | r :: _ => r.fields.map Prod.fst

/-- Python list slicing up to an integer bound, as in rows up to limit on
src/app.py line 112: negative bounds count from the end and clamp at zero. -/
def pySliceTo (xs : List Row) (k : Int) : List Row :=
  if 0 ≤ k then xs.take k.toNat else xs.take ((xs.length : Int) + k).toNat

/-- Embeds the rewrite on src/app.py lines 100-101: when the mangled limit
pattern finds no match, the trailing semicolons are stripped and a literal
backslash, the letter n, and a LIMIT clause are appended. -/
def rewriteLimit (sql : List Char) (limit : Int) : List Char :=
  if limitSearch sql then sql
  else rstripSemi sql ++ ('\\' :: 'n' :: ("LIMIT ").data) ++ (toString limit).data ++ [';']

/-- The connect-execute-fetch-close portion of run_sql, src/app.py lines
102-127, over the data-store oracle, together with its event trace.  The
finally block closes the connection whenever one was acquired. -/
def execPhase (db : DB) (sql : List Char) (limit : Int) :
    Except GuardError RunResult × List Ev :=
  match db.connectRes with
  | .error m => (Except.ok (RunResult.failure m), [Ev.connectAttempt])
  | .ok _ =>
    match db.execRes sql with
    | .error m =>
        (Except.ok (RunResult.failure m),
         [Ev.connectAttempt, Ev.connectOk, Ev.execStmt sql, Ev.closeConn])
    | .ok _ =>
      match db.fetchRes sql with
      | .error m =>
          (Except.ok (RunResult.failure m),
           [Ev.connectAttempt, Ev.connectOk, Ev.execStmt sql, Ev.closeConn])
      | .ok rows =>
          (Except.ok (RunResult.success db.elapsedMs rows.length limit
            (columnsOf (pySliceTo rows limit)) (pySliceTo rows limit)),
           [Ev.connectAttempt, Ev.connectOk, Ev.execStmt sql, Ev.fetchRows, Ev.closeConn])

/-- Embeds run_sql from src/app.py lines 95-127.  guard_sql is called before
the try block, so a rejection propagates as a raised ValueError, modelled by
the error constructor; every dictionary the function returns is modelled by
the ok constructor. -/
def run_sql (db : DB) (sqlText : List Char) (limit : Int) :
    Except GuardError RunResult × List Ev :=
  match guard_sql sqlText with
  | .error e => (Except.error e, [])
  | .ok sql0 => execPhase db (rewriteLimit sql0 limit) limit

/-- True exactly on statement-execution events. -/
def isExecEv : Ev → Bool
  | .execStmt _ => true
  | _ => false

/-- Number of statement-execution events in a trace. -/
def countExec : List Ev → Nat
  | [] => 0
  | e :: tr => (if isExecEv e then 1 else 0) + countExec tr

/-- True when the run_sql outcome is a returned failure dictionary. -/
def isFailureResult : Except GuardError RunResult → Bool
  | .ok (.failure _) => true
  | _ => false

instance {ε α : Type} [DecidableEq ε] [DecidableEq α] : DecidableEq (Except ε α) := fun a b =>
  match a, b with
  | .error x, .error y =>
    match decEq x y with
    | .isTrue h => .isTrue (congrArg Except.error h)
    | .isFalse h => .isFalse (fun hh => h (Except.error.inj hh))
  | .ok x, .ok y =>
    match decEq x y with
    | .isTrue h => .isTrue (congrArg Except.ok h)
    | .isFalse h => .isFalse (fun hh => h (Except.ok.inj hh))
  | .error _, .ok _ => .isFalse (fun hh => Except.noConfusion hh)
  | .ok _, .error _ => .isFalse (fun hh => Except.noConfusion hh)

/- Spec-side predicates.  The following definitions follow the spec's words
(sections 4.1, 8 of spec.md) rather than the source patterns; they exist to
be compared with the source-derived matchers above. -/

/-- Follows the spec's words: a keyword occurrence followed by a word
boundary, that is, the rest starts with the lowercase word and the next
character, if any, is not a word character. -/
def ciWordEnd (w : List Char) (cs : List Char) : Bool :=
  ciStarts w cs &&
  (match cs.drop w.length with
   | [] => true
   | c :: _ => !isWordChar c)

/-- Follows the spec's words: the leading-clause pattern, optional whitespace
then WITH or SELECT with a word boundary, anchored at the start. -/
def spec_allow_match (s : List Char) : Bool :=
  wsStarThen (fun cs => ciWordEnd kwWith cs || ciWordEnd kwSelect cs) s

/-- Follows the spec's words: a forbidden verb as a whole word at the current
position, the previous character being tracked by the caller. -/
def spec_forbid_here (prev : Option Char) (cs : List Char) : Bool :=
  (match prev with
   | none => true
   | some p => !isWordChar p) &&
  forbidVerbs.any (fun v => ciWordEnd v cs)

/-- Scans all positions for a whole-word forbidden verb. -/
def spec_forbid_from (prev : Option Char) : List Char → Bool
  | [] => false
  | c :: cs => spec_forbid_here prev (c :: cs) || spec_forbid_from (some c) cs

/-- Follows the spec's words: the text contains a forbidden verb as a whole
word, case-insensitively. -/
def spec_forbidden_word (s : List Char) : Bool := spec_forbid_from none s

/-- Follows the spec's words: a FROM reference to the fixed view at the
current position, with real whitespace after FROM and around the dot, the
double quotes optional. -/
def spec_view_here (cs : List Char) : Bool :=
  ciStarts kwFrom cs &&
  (match cs.drop 4 with
   | c :: cs2 =>
       isPyWs c &&
       wsStarThen (fun cs3 =>
         ciStarts kwPublic cs3 &&
         wsStarThen (fun cs4 =>
           match cs4 with
           | '.' :: cs5 => wsStarThen pavHere cs5
           | _ => false) (cs3.drop 6)) cs2
   | [] => false)

/-- Follows the spec's words: the text contains a FROM reference to the
fixed schema-qualified view. -/
def spec_view_ref (s : List Char) : Bool := searchFrom spec_view_here s

/-- Follows the spec's words: a whole-word limit at the current position. -/
def spec_limit_here (prev : Option Char) (cs : List Char) : Bool :=
  (match prev with
   | none => true
   | some p => !isWordChar p) && ciWordEnd kwLimit cs

/-- Scans all positions for a whole-word limit. -/
def spec_limit_from (prev : Option Char) : List Char → Bool
  | [] => false
  | c :: cs => spec_limit_here prev (c :: cs) || spec_limit_from (some c) cs

/-- Follows the spec's words: the text contains a case-insensitive whole-word
LIMIT. -/
def spec_limit_word (s : List Char) : Bool := spec_limit_from none s

/-- Follows the spec's words: strip one trailing semicolon if present. -/
def stripOneTrailingSemi (t : List Char) : List Char :=
  if t.getLast? = some ';' then t.dropLast else t

/- Concrete sample data used by the claim theorems. -/

/-- Data-store oracle where every step succeeds and no rows come back. -/
def dbOk : DB :=
  { connectRes := Except.ok (), execRes := fun _ => Except.ok (),
    fetchRes := fun _ => Except.ok [], elapsedMs := 0 }

/-- Data-store oracle whose connection attempt fails. -/
def dbConnFail : DB :=
  { connectRes := Except.error ("boom"), execRes := fun _ => Except.ok (),
    fetchRes := fun _ => Except.ok [], elapsedMs := 0 }

def rowA : Row := { fields := [("id", "1")] }

def rowB : Row := { fields := [("id", "2")] }

def rowC : Row := { fields := [("id", "3")] }

/-- Data-store oracle that returns three rows. -/
def dbRows : DB :=
  { connectRes := Except.ok (), execRes := fun _ => Except.ok (),
    fetchRes := fun _ => Except.ok [rowA, rowB, rowC], elapsedMs := 7 }

def txtDelete : List Char := ("DELETE FROM public.x").data

def txtUpdate : List Char := ("UPDATE t SET x=1").data

def txtSelectInsert : List Char :=
  ("select * from public.PurchaseAllView where insert = 1").data

def txtAccWhere : List Char :=
  ("\\select\\b from\\spublic\\s\\.\\sPurchaseAllView where a = b").data

def txtAccLimit : List Char :=
  ("\\select\\b from\\spublic\\s\\.\\sPurchaseAllView LIMIT 5").data

def txtAccOrder : List Char :=
  ("\\select\\b e from\\spublic\\s\\.\\sPurchaseAllView order by 1").data

def txtAccWith : List Char :=
  ("\\with\\b x as y from\\spublic\\s\\.\\sPurchaseAllView").data

def txtAccC : List Char :=
  ("\\select\\b c from\\spublic\\s\\.\\sPurchaseAllView").data

def txtAccPlain : List Char :=
  ("\\select\\b from\\spublic\\s\\.\\sPurchaseAllView").data

def txtAccQuoted : List Char :=
  ("\\sselect\\b from\\spublic\\s\\.\\s\"PurchaseAllView\"").data

def txtAccSemi : List Char :=
  ("\\select\\b d from\\spublic\\s\\.\\sPurchaseAllView;").data

def txtWs : List Char := ("   ").data

/-- When the bound is nonnegative, the Python slice up to it is take. -/
theorem pySliceTo_of_nonneg (xs : List Row) (k : Int) (h : 0 ≤ k) :
    pySliceTo xs k = xs.take k.toNat := by
  simp [pySliceTo, h]

/-- The semicolon check of src/app.py line 91 (membership in the stripped
text with its last character removed) agrees with the spec's formulation
(membership after stripping one trailing semicolon). -/
theorem semi_mem_dropLast_iff (t : List Char) :
    ';' ∈ t.dropLast ↔ ';' ∈ stripOneTrailingSemi t := by
  unfold stripOneTrailingSemi
  cases hr : t.reverse with
  | nil =>
    have ht : t = [] := by
      have h2 := congrArg List.reverse hr
      simpa using h2
    subst ht
    simp
  | cons c rest =>
    have ht : t = rest.reverse ++ [c] := by
      have h2 := congrArg List.reverse hr
      simpa using h2
    subst ht
    by_cases hc : c = ';'
    · subst hc
      simp [List.dropLast_concat, List.getLast?_concat]
    · rw [List.dropLast_concat, if_neg (by simp [List.getLast?_concat, hc])]
      constructor
      · intro h
        exact List.mem_append_left _ h
      · intro h
        rcases List.mem_append.mp h with h | h
        · exact h
        · simp at h
          exact absurd h.symm hc

/-- C1, counterexample: on the rejected text DELETE FROM public.x, run_sql
does not return a failure dictionary; the rejection leaves run_sql as the
raised ValueError (the error constructor of the model), with an empty
data-store trace, so the claim that execute returns a structured Failure
result rather than raising is false on the code. -/
theorem c1_counterexample :
    isFailureResult (run_sql dbOk txtDelete 10).1 = false ∧
    (run_sql dbOk txtDelete 10).1 = Except.error GuardError.notAReadStatement ∧
    (run_sql dbOk txtDelete 10).2 = [] := by
  refine ⟨rfl, rfl, rfl⟩

/-- C1, amended: for every text the validator rejects and every limit,
run_sql propagates the rejection synchronously as the raised ValueError
carrying the reason (it does not return a Failure dictionary), and it never
contacts the data store: the event trace is empty. -/
theorem c1_rejected_raises (db : DB) (s : List Char) (limit : Int)
    (e : GuardError) (h : guard_sql s = Except.error e) :
    run_sql db s limit = (Except.error e, ([] : List Ev)) := by
  unfold run_sql
  rw [h]

/-- C1, witness for the amended claim at a concrete rejected input. -/
theorem c1_rejected_raises_witness :
    run_sql dbOk txtUpdate 5 = (Except.error GuardError.notAReadStatement, ([] : List Ev)) :=
  c1_rejected_raises dbOk txtUpdate 5 GuardError.notAReadStatement (by decide)

/-- C2: the claim fails on the code.  The text select * from
public.PurchaseAllView where insert = 1 begins with SELECT in the spec's
sense and contains the forbidden verb insert as a whole word, yet guard_sql
rejects it with the not-a-read-statement reason, not ForbiddenOperation,
because the doubled backslashes of the allow pattern demand a literal
backslash before the keyword. -/
theorem c2_forbidden_misreported :
    spec_allow_match txtSelectInsert = true ∧
    spec_forbidden_word txtSelectInsert = true ∧
    guard_sql txtSelectInsert = Except.error GuardError.notAReadStatement := by
  refine ⟨by decide, by decide, by decide⟩

/-- C10: for the empty string and for every whitespace-only string, guard_sql
rejects with the not-a-read-statement reason of the leading-clause rule and
no later rule runs. -/
theorem c10_degenerate_rejected (s : List Char)
    (h : s = [] ∨ s.all isPyWs = true) :
    guard_sql s = Except.error GuardError.notAReadStatement := by
  have hall : sqlAllowMatch s = false := by
    cases h with
    | inl h0 => subst h0; rfl
    | inr h0 =>
      cases s with
      | nil => rfl
      | cons c cs =>
        have hc : isPyWs c = true :=
          List.all_eq_true.mp h0 c (List.mem_cons_self c cs)
        have hne : c ≠ '\\' := by
          intro he
          subst he
          simp [isPyWs] at hc
        simp [sqlAllowMatch, hne]
  simp [guard_sql, hall]

/-- C10, witness at a whitespace-only string. -/
theorem c10_degenerate_rejected_witness :
    guard_sql txtWs = Except.error GuardError.notAReadStatement :=
  c10_degenerate_rejected txtWs (Or.inr (by decide))

/-- C9: for every text that passes the first three rules, guard_sql rejects
with MultipleStatements exactly when a semicolon remains after trimming
whitespace and stripping one trailing semicolon; in particular a text whose
only semicolon is a single trailing one is accepted. -/
theorem c9_single_statement_rule (s : List Char)
    (h1 : sqlAllowMatch s = true) (h2 : forbidSearch s = false)
    (h3 : viewSearch s = true) :
    guard_sql s =
      (if ';' ∈ stripOneTrailingSemi (pyStrip s) then
        Except.error GuardError.multipleStatements
       else Except.ok (pyStrip s)) := by
  unfold guard_sql
  rw [h1, h2, h3]
  simp [semi_mem_dropLast_iff]

/-- C9, witness at a concrete text whose only semicolon is trailing. -/
theorem c9_single_statement_rule_witness :
    guard_sql txtAccSemi =
      (if ';' ∈ stripOneTrailingSemi (pyStrip txtAccSemi) then
        Except.error GuardError.multipleStatements
       else Except.ok (pyStrip txtAccSemi)) :=
  c9_single_statement_rule txtAccSemi (by decide) (by decide) (by decide)

/-- C3: whenever run_sql returns the success dictionary and the limit is at
least one, the preview holds min(row_count, limit) rows, never more than the
limit, the reported preview limit is the caller's limit, and row_count is the
full number of rows fetched, of which the preview is the take. -/
theorem c3_preview_capped (db : DB) (s : List Char) (limit : Int)
    (e rc : Nat) (pl : Int) (cols : List String) (rows : List Row)
    (hlim : 1 ≤ limit)
    (hrun : (run_sql db s limit).1 =
      Except.ok (RunResult.success e rc pl cols rows)) :
    rows.length = min rc limit.toNat ∧ rows.length ≤ limit.toNat ∧
    pl = limit ∧
    ∃ fetched : List Row, rc = fetched.length ∧ rows = fetched.take limit.toNat := by
  have h0 : (0 : Int) ≤ limit := by omega
  unfold run_sql at hrun
  split at hrun
  · simp at hrun
  · rename_i sql0 heq
    unfold execPhase at hrun
    split at hrun
    · simp at hrun
    · split at hrun
      · simp at hrun
      · split at hrun
        · simp at hrun
        · rename_i rows0 hf
          rw [pySliceTo_of_nonneg _ _ h0] at hrun
          simp only [Except.ok.injEq, RunResult.success.injEq] at hrun
          obtain ⟨he, hrc, hpl, hcols, hrows⟩ := hrun
          subst hrc
          subst hpl
          subst hrows
          refine ⟨?_, ?_, rfl, ⟨rows0, rfl, rfl⟩⟩
          · rw [List.length_take]
            exact Nat.min_comm _ _
          · rw [List.length_take]
            exact Nat.min_le_left _ _

/-- C3, witness: a concrete accepted statement against a store returning
three rows with limit two yields a two-row preview and row_count three. -/
theorem c3_preview_capped_witness :
    ([rowA, rowB] : List Row).length = min 3 (Int.toNat 2) ∧
    ([rowA, rowB] : List Row).length ≤ Int.toNat 2 ∧
    (2 : Int) = 2 ∧
    (∃ fetched : List Row, 3 = fetched.length ∧
      ([rowA, rowB] : List Row) = fetched.take (Int.toNat 2)) :=
  c3_preview_capped dbRows txtAccWhere 2 7 3 2 (["id"]) [rowA, rowB]
    (by decide) (by decide)

/-- C5: on every run_sql call that acquires a data-store connection (the
trace records a successful connect), the connection is released before the
call returns: a close event is present and is the final event, on every exit
path. -/
theorem c5_connection_released (db : DB) (s : List Char) (limit : Int)
    (h : Ev.connectOk ∈ (run_sql db s limit).2) :
    Ev.closeConn ∈ (run_sql db s limit).2 ∧
    ∃ pre : List Ev, (run_sql db s limit).2 = pre ++ [Ev.closeConn] := by
  cases hg : guard_sql s with
  | error e0 =>
    have hrw : run_sql db s limit = (Except.error e0, ([] : List Ev)) := by
      unfold run_sql
      rw [hg]
    rw [hrw] at h
    simp at h
  | ok sql0 =>
    have hrw : run_sql db s limit = execPhase db (rewriteLimit sql0 limit) limit := by
      unfold run_sql
      rw [hg]
    rw [hrw] at h ⊢
    unfold execPhase at h ⊢
    cases hc : db.connectRes with
    | error m =>
      rw [hc] at h
      simp at h
    | ok u =>
      rw [hc] at h
      cases hx : db.execRes (rewriteLimit sql0 limit) with
      | error m =>
        rw [hx] at h
        exact ⟨by simp, ⟨[Ev.connectAttempt, Ev.connectOk,
          Ev.execStmt (rewriteLimit sql0 limit)], rfl⟩⟩
      | ok v =>
        rw [hx] at h
        cases hf : db.fetchRes (rewriteLimit sql0 limit) with
        | error m =>
          rw [hf] at h
          exact ⟨by simp, ⟨[Ev.connectAttempt, Ev.connectOk,
            Ev.execStmt (rewriteLimit sql0 limit)], rfl⟩⟩
        | ok rows0 =>
          rw [hf] at h
          exact ⟨by simp, ⟨[Ev.connectAttempt, Ev.connectOk,
            Ev.execStmt (rewriteLimit sql0 limit), Ev.fetchRows], rfl⟩⟩

/-- C5, witness at a concrete accepted statement and a store whose
connection succeeds. -/
theorem c5_connection_released_witness :
    Ev.closeConn ∈ (run_sql dbRows txtAccWith 3).2 ∧
    ∃ pre : List Ev, (run_sql dbRows txtAccWith 3).2 = pre ++ [Ev.closeConn] :=
  c5_connection_released dbRows txtAccWith 3 (by decide)

/-- C6: for every statement that passed validation, a fault at the connect,
execute, or fetch stage makes run_sql return the failure dictionary carrying
the underlying error message (never a propagated fault), and the trace holds
at most one statement execution: no retry. -/
theorem c6_failure_folded (db : DB) (s : List Char) (limit : Int)
    (sql0 : List Char) (m : String)
    (hg : guard_sql s = Except.ok sql0)
    (hfail : db.connectRes = Except.error m ∨
      (db.connectRes = Except.ok () ∧
        db.execRes (rewriteLimit sql0 limit) = Except.error m) ∨
      (db.connectRes = Except.ok () ∧
        db.execRes (rewriteLimit sql0 limit) = Except.ok () ∧
        db.fetchRes (rewriteLimit sql0 limit) = Except.error m)) :
    (run_sql db s limit).1 = Except.ok (RunResult.failure m) ∧
    countExec (run_sql db s limit).2 ≤ 1 := by
  have hrw : run_sql db s limit = execPhase db (rewriteLimit sql0 limit) limit := by
    unfold run_sql
    rw [hg]
  rw [hrw]
  unfold execPhase
  rcases hfail with hc | ⟨hc, hx⟩ | ⟨hc, hx, hf⟩
  · rw [hc]
    exact ⟨rfl, by simp [countExec, isExecEv]⟩
  · rw [hc, hx]
    exact ⟨rfl, by simp [countExec, isExecEv]⟩
  · rw [hc, hx, hf]
    exact ⟨rfl, by simp [countExec, isExecEv]⟩

/-- C6, witness at a concrete accepted statement whose connection attempt
fails. -/
theorem c6_failure_folded_witness :
    (run_sql dbConnFail txtAccC 5).1 = Except.ok (RunResult.failure ("boom")) ∧
    countExec (run_sql dbConnFail txtAccC 5).2 ≤ 1 :=
  c6_failure_folded dbConnFail txtAccC 5 txtAccC ("boom") (by decide)
    (Or.inl (by decide))

/-- C4: the claim fails on the code.  The accepted text txtAccLimit carries a
whole-word LIMIT clause in the spec's sense, yet the mangled pattern of
src/app.py line 100 does not detect it, so run_sql rewrites the statement and
appends a second LIMIT clause; moreover what the rewrite inserts before the
clause at txtAccOrder is a literal backslash followed by the letter n, not a
newline. -/
theorem c4_limit_rewrite_divergence :
    spec_limit_word txtAccLimit = true ∧
    guard_sql txtAccLimit = Except.ok txtAccLimit ∧
    rewriteLimit txtAccLimit 7 ≠ txtAccLimit ∧
    spec_limit_word txtAccOrder = false ∧
    rewriteLimit txtAccOrder 9 = txtAccOrder ++ ('\\' :: 'n' :: ("LIMIT 9;").data) ∧
    rewriteLimit txtAccOrder 9 ≠ txtAccOrder ++ ('\n' :: ("LIMIT 9;").data) := by
  refine ⟨by decide, by decide, by decide, by decide, by decide, by decide⟩

/-- C7: the claim fails on the code.  The text txtAccPlain does not match the
spec's leading-clause pattern (it starts with a backslash, not with optional
whitespace and WITH or SELECT), so the claim requires guard_sql to reject it
with the not-a-read-statement reason, yet the mangled allow pattern of
src/app.py line 78 matches it and guard_sql accepts it outright. -/
theorem c7_leading_clause_divergence :
    spec_allow_match txtAccPlain = false ∧
    guard_sql txtAccPlain = Except.ok txtAccPlain := by
  refine ⟨by decide, by decide⟩

/-- C8: the claim fails on the code.  The text txtAccQuoted passes the
leading-clause and forbidden-verb rules of the code yet contains no FROM
reference to the fixed view in the spec's sense (its from is followed by a
literal backslash, not whitespace), so the claim requires rejection with the
unauthorized-target reason; guard_sql nevertheless accepts it, because the
mangled view pattern of src/app.py line 80 matches the backslash text. -/
theorem c8_target_rule_divergence :
    sqlAllowMatch txtAccQuoted = true ∧
    forbidSearch txtAccQuoted = false ∧
    spec_view_ref txtAccQuoted = false ∧
    guard_sql txtAccQuoted = Except.ok txtAccQuoted := by
  refine ⟨by decide, by decide, by decide, by decide⟩
